import Mathlib

/-!  Shallow embedding of the retrieval-and-grounding pipeline of the
nl_to_sql_to_figure repository: schema-document generation
(generate_schema_documents.py), vector-store retrieval
(embed_documents_into_vector_db.py), and context assembly plus SQL
validation (create_sql_query.py).  Python strings are modelled by `String`
(per-character upper-casing for `str.upper`), floats by `ℚ`, pandas
dataframes by lists of row records, and the external database and
vector-store services by explicit oracle functions. -/

/-- A Python runtime value, modelling the untyped metadata dictionary
attached to schema documents (only the value shapes that occur there). -/
inductive PyVal where
  | str : String → PyVal
  | int : Int → PyVal
  | bool : Bool → PyVal
  | none : PyVal
  deriving DecidableEq

/-- The reason component returned by the SQL-validator checks: Python gives
back either a `str` or `None`, modelled as an explicit sum. -/
inductive PyReason where
  | s : String → PyReason
  | noneV : PyReason
  deriving DecidableEq

/-- Embeds the `SchemaDoc` dataclass of generate_schema_documents.py. -/
structure SchemaDoc where
  doc_id : String
  doc_type : String
  table : Option String
  column : Option String
  ref_table : Option String
  ref_column : Option String
  text : String
  meta : List (String × PyVal)
  deriving DecidableEq

/-- Embeds the per-column info dictionary built by `fetch_table_columns`
(keys cid, name, type, notnull, default, primary_key, samples); sample
values are modelled after Python stringification. -/
structure ColumnInfo where
  cid : Int
  name : String
  type : String
  notnull : Bool
  default : Option String
  primary_key : Int
  samples : List String
  deriving DecidableEq

/-- Embeds `make_column_document` of generate_schema_documents.py. -/
def make_column_document (table : String) (column : ColumnInfo) : SchemaDoc :=
  let column_name := column.name
  let data_type := if column.type = "" then "UNKNOWN" else column.type
  let is_nullable := if column.notnull then "no" else "yes"
  let is_primary_key := if column.primary_key > 0 then "yes" else "no"
  let is_default := match column.default with
    | some d => d
    | Option.none => "None"
  let sample_text :=
    if column.samples.isEmpty then "None"
    else String.intercalate ", " column.samples
  let col_text :=
    "Column: " ++ table ++ "." ++ column_name ++ "\n" ++
    "Data type: " ++ data_type ++ "\n" ++
    "Nullable: " ++ is_nullable ++ "\n" ++
    "Primary key: " ++ is_primary_key ++ "\n" ++
    "Default: " ++ is_default ++ "\n" ++
    "Sample values: " ++ sample_text ++ "\n"
  { doc_id := "column:" ++ table ++ "." ++ column_name
    doc_type := "column"
    table := some table
    column := some column_name
    ref_table := Option.none
    ref_column := Option.none
    text := col_text
    meta := [("table", PyVal.str table),
             ("column", PyVal.str column_name),
             ("dtype", PyVal.str data_type),
             ("primary_key", PyVal.int column.primary_key),
             ("notnull", PyVal.bool column.notnull)] }

/-- Occurrence of `needle` as a contiguous sublist of `hay`, modelling the
Python substring operator `in`. -/
def listContainsSub (needle : List Char) : List Char → Bool
  | [] => needle.isEmpty
  | h :: t => needle.isPrefixOf (h :: t) || listContainsSub needle t

/-- String form of `listContainsSub`: Python `needle in hay`. -/
def strContainsSub (hay needle : String) : Bool :=
  listContainsSub needle.data hay.data

/-- Models Python `str.upper` by per-character upper-casing (faithful on
the ASCII strings this pipeline handles). -/
def pyUpper (s : String) : String := ⟨s.data.map Char.toUpper⟩

/-- Case-insensitive occurrence of `needle` in `hay`: both sides are
upper-cased before the substring test. -/
def caseInsensitiveOccurs (needle hay : String) : Bool :=
  strContainsSub (pyUpper hay) (pyUpper needle)

/-- Embeds `FORBIDDEN_KEYWORDS` of create_sql_query.py. -/
def FORBIDDEN_KEYWORDS : List String :=
  ["DROP TABLE", "DELETE FROM", "INSERT INTO", "UPDATE", "ALTER TABLE"]

/-- Embeds `check_forbidden_keywords` of create_sql_query.py. -/
def check_forbidden_keywords (sql_query : String) : Bool × PyReason :=
  let query_upper := pyUpper sql_query
  let found_forbidden :=
    FORBIDDEN_KEYWORDS.filter (fun term => strContainsSub query_upper term)
  if found_forbidden.isEmpty then (true, PyReason.s "")
  else
    (false, PyReason.s ("query has forbidden keywords " ++
      String.intercalate ", " found_forbidden))

/-- Embeds `check_sql_schema_and_syntax` of create_sql_query.py.  The
sqlite connection is modelled by an oracle `db` mapping a submitted SQL
text to `none` (statement compiles) or `some msg` (the message of the
raised `sqlite3.Error`).  The second component of the result records every
statement submitted to the database during the call. -/
def check_sql_schema_and_syntax (db : String → Option String)
    (sql_query : String) : (Bool × PyReason) × List String :=
  let cmd := "EXPLAIN QUERY PLAN " ++ sql_query
  match db cmd with
  | Option.none => ((true, PyReason.noneV), [cmd])
  | some e => ((false, PyReason.s e), [cmd])

/-- The sqlite error classes distinguished by `fetch_column_samples`:
`sqlite3.OperationalError` versus every other raisable error. -/
inductive SqliteErr where
  | operationalError : String → SqliteErr
  | otherError : String → SqliteErr
  deriving DecidableEq

/-- Oracle for the per-column sampling query
`SELECT DISTINCT "c" FROM "t" WHERE "c" IS NOT NULL LIMIT ?`:
`distinctRows t c` is the full distinct non-null value list the database
would stream for that column (the LIMIT is applied by taking a prefix) and
`queryErr t c` is the error the execute call raises, if any. -/
structure SampleDb where
  distinctRows : String → String → List String
  queryErr : String → String → Option SqliteErr

/-- Embeds `fetch_column_samples` of generate_schema_documents.py: runs the
distinct-sample query with the given LIMIT (default 3, the value used by
`fetch_table_columns`), returns `[]` when the query raises an
OperationalError, and propagates any other error. -/
def fetch_column_samples (db : SampleDb) (table column : String)
    (limit : Nat := 3) : Except SqliteErr (List String) :=
  match db.queryErr table column with
  | some (SqliteErr.operationalError _) => Except.ok []
  | some e => Except.error e
  | Option.none => Except.ok ((db.distinctRows table column).take limit)

/-- One row of the pandas dataframe returned by the vector search in
`get_relevant_documents`; only the distance matters to the logic. -/
structure SearchRow where
  doc_id : String
  distance : ℚ
  deriving DecidableEq

/-- Embeds `get_relevant_documents` of embed_documents_into_vector_db.py.
`results` models `vector_db.search(context + query).limit(50).to_pandas()`,
ascending by distance; the Python float literal 1.10 is the rational
11 / 10. -/
def get_relevant_documents : List SearchRow → List SearchRow
  | [] => []
  | r :: rest =>
    let top_score := r.distance
    let adaptive_threshold := top_score * (11 / 10 : ℚ)
    (r :: rest).filter (fun x => x.distance ≤ adaptive_threshold)

/-- One row of the SQL-context dataframe consumed by
`extract_table_descriptions` (fields `doc_type`, `table`, `text`). -/
structure ContextRow where
  doc_type : String
  table : String
  text : String
  deriving DecidableEq

/-- First-occurrence deduplication with an accumulator of already-seen
values, modelling pandas `Series.unique`. -/
def uniqueAux : List String → List String → List String
  | [], _ => []
  | x :: xs, seen =>
    if x ∈ seen then uniqueAux xs seen else x :: uniqueAux xs (x :: seen)

/-- Models pandas `Series.unique`: first occurrences, in encounter order. -/
def uniqueFirst (l : List String) : List String := uniqueAux l []

/-- The document delimiter wrapper used by both `get_documents_text` and
`extract_table_descriptions` in create_sql_query.py. -/
def wrapDoc (text : String) : String :=
  "[DOCUMENT_START]\n" ++ text ++ "[DOCUMENT_END]\n\n"

/-- Embeds `extract_table_descriptions` of create_sql_query.py: backfills a
table description for every table that has a column document in context but
no table document, looking the table document up (first match, then stop)
in the in-memory document list. -/
def extract_table_descriptions (sql_context : List ContextRow)
    (documents : List SchemaDoc) : String :=
  let existing_tables :=
    uniqueFirst ((sql_context.filter (fun r => r.doc_type == "table")).map
      (fun r => r.table))
  let col_sql_context := sql_context.filter (fun r => r.doc_type == "column")
  (uniqueFirst (col_sql_context.map (fun r => r.table))).foldl
    (fun table_descriptions table_name =>
      if table_name ∈ existing_tables then table_descriptions
      else
        match documents.find? (fun d => d.doc_id == "table:" ++ table_name) with
        | some document => table_descriptions ++ wrapDoc document.text
        | Option.none => table_descriptions)
    ""

/-- The table names for which `extract_table_descriptions` appends a
backfilled description: tables of in-context column documents (first
occurrences), minus tables whose table document is already in context,
minus tables with no matching document in the in-memory list. -/
def backfilledTables (sql_context : List ContextRow)
    (documents : List SchemaDoc) : List String :=
  ((uniqueFirst ((sql_context.filter (fun r => r.doc_type == "column")).map
      (fun r => r.table))).filter
    (fun t => ¬ t ∈ uniqueFirst
      ((sql_context.filter (fun r => r.doc_type == "table")).map
        (fun r => r.table)))).filter
    (fun t => (documents.find? (fun d => d.doc_id == "table:" ++ t)).isSome)

/-- Concatenation of a list of strings, head first. -/
def strConcat : List String → String
  | [] => ""
  | s :: l => s ++ strConcat l

/-- Modelled from the spec: one foreign-key edge of a TableDocument —
(local column name, referenced table name, referenced column name); the
structural record that the builder of `ColumnDoc` consults. -/
structure FkEdge where
  from_col : String
  ref_table : String
  to_col : String
  deriving DecidableEq

/-- Modelled from the spec: the `ColumnDoc` record that
embed_documents_into_vector_db.py and create_sql_query.py import from
generate_schema_documents but whose defining revision is absent from src/;
fields follow spec section 3 (ColumnDocument) and the consumer
`upsert_schema_docs_to_lancedb`. -/
structure ColumnDoc where
  doc_id : String
  table_name : String
  column_name : String
  data_type : String
  text_description : String
  is_primary_key : Bool
  is_foreign_key : Bool
  related_table : Option String
  related_column : Option String
  deriving DecidableEq

/-- Modelled from the spec: building a ColumnDocument from a column record
and the owning table's foreign-key edges — a column that participates in a
foreign key gets `is_foreign_key := true` and the referenced table/column
of its edge; otherwise the flag is false and both references are absent. -/
def mkColumnDoc (table : String) (col : ColumnInfo) (fks : List FkEdge)
    (text_description : String) : ColumnDoc :=
  match fks.find? (fun fk => fk.from_col == col.name) with
  | some fk =>
    { doc_id := "column:" ++ table ++ "." ++ col.name
      table_name := table
      column_name := col.name
      data_type := if col.type = "" then "UNKNOWN" else col.type
      text_description := text_description
      is_primary_key := col.primary_key > 0
      is_foreign_key := true
      related_table := some fk.ref_table
      related_column := some fk.to_col }
  | Option.none =>
    { doc_id := "column:" ++ table ++ "." ++ col.name
      table_name := table
      column_name := col.name
      data_type := if col.type = "" then "UNKNOWN" else col.type
      text_description := text_description
      is_primary_key := col.primary_key > 0
      is_foreign_key := false
      related_table := Option.none
      related_column := Option.none }

/-- The single-sentence description format that the spec asserts for
`buildColumnDocument`; written from the spec's words for comparison with
the source's `make_column_document`. -/
def claimedColumnText (table : String) (col : ColumnInfo) : String :=
  "Table: " ++ table ++ ", Column: " ++ col.name ++ ". Type: " ++
    (if col.type = "" then "UNKNOWN" else col.type) ++
    ". Sample values: " ++ String.intercalate ", " col.samples

example :
    (check_forbidden_keywords "select * from t where updated = 1").1 = false := by
  decide

example : (check_forbidden_keywords "SELECT 1").1 = true := by decide

example :
    get_relevant_documents [⟨"a", 10⟩, ⟨"b", 10⟩, ⟨"c", 12⟩]
      = [⟨"a", 10⟩, ⟨"b", 10⟩] := by
  simp only [get_relevant_documents, List.filter]
  norm_num

/-! ## Helper lemmas about substring occurrence -/

theorem isPrefixOf_append_self (a b : List Char) :
    a.isPrefixOf (a ++ b) = true := by
  induction a with
  | nil => simp [List.isPrefixOf]
  | cons x xs ih => simp [List.isPrefixOf, ih]

theorem listContainsSub_of_isPrefixOf (needle hay : List Char)
    (h : needle.isPrefixOf hay = true) : listContainsSub needle hay = true := by
  cases hay with
  | nil =>
    cases needle with
    | nil => rfl
    | cons c cs => simp [List.isPrefixOf] at h
  | cons c cs => simp [listContainsSub, h]

theorem listContainsSub_append_left (pre hay needle : List Char)
    (h : listContainsSub needle hay = true) :
    listContainsSub needle (pre ++ hay) = true := by
  induction pre with
  | nil => simpa using h
  | cons x xs ih => simp [listContainsSub, ih]

theorem strContainsSub_append (p q n : String)
    (h : n.data.isPrefixOf q.data = true) :
    strContainsSub (p ++ q) n = true := by
  unfold strContainsSub
  have hd : (p ++ q).data = p.data ++ q.data := rfl
  rw [hd]
  exact listContainsSub_append_left p.data q.data n.data
    (listContainsSub_of_isPrefixOf n.data q.data h)

theorem strContainsSub_mid (P s x tail : String) :
    strContainsSub (P ++ s ++ x ++ tail) (s ++ x) = true := by
  have h : P ++ s ++ x ++ tail = P ++ ((s ++ x) ++ tail) := by
    rw [String.append_assoc P s x, String.append_assoc P (s ++ x) tail]
  rw [h]
  apply strContainsSub_append
  have hd : ((s ++ x) ++ tail).data = (s ++ x).data ++ tail.data := rfl
  rw [hd]
  exact isPrefixOf_append_self _ _

/-! ## Claim theorems: retrieval -/

/-- C1: for every non-empty similarity-search result list, ordered ascending
by (non-negative) distance, `get_relevant_documents` retains exactly the rows
with distance at most 1.10 times the best distance; the retained subset
contains the best row (hence is non-empty), is a sublist of the input, and is
still ascending by distance. -/
theorem adaptive_threshold_retains_best (r : SearchRow) (rest : List SearchRow)
    (hnn : 0 ≤ r.distance)
    (hsort : List.Sorted (fun a b : SearchRow => a.distance ≤ b.distance)
      (r :: rest)) :
    get_relevant_documents (r :: rest)
        = (r :: rest).filter (fun x => x.distance ≤ r.distance * (11 / 10 : ℚ)) ∧
      r ∈ get_relevant_documents (r :: rest) ∧
      get_relevant_documents (r :: rest) ≠ [] ∧
      (get_relevant_documents (r :: rest)).Sublist (r :: rest) ∧
      List.Sorted (fun a b : SearchRow => a.distance ≤ b.distance)
        (get_relevant_documents (r :: rest)) := by
  have hdef : get_relevant_documents (r :: rest)
      = (r :: rest).filter (fun x => x.distance ≤ r.distance * (11 / 10 : ℚ)) :=
    rfl
  have hr : r ∈ get_relevant_documents (r :: rest) := by
    rw [hdef]
    refine List.mem_filter.mpr ⟨List.mem_cons_self r rest, ?_⟩
    simp only [decide_eq_true_eq]
    linarith
  refine ⟨hdef, hr, ?_, ?_, ?_⟩
  · intro h
    rw [h] at hr
    exact List.not_mem_nil r hr
  · rw [hdef]
    exact List.filter_sublist _
  · rw [hdef]
    exact hsort.filter _

/-- Witness for C1 at a concrete three-row result list. -/
theorem adaptive_threshold_retains_best_witness :
    (⟨"a", (10 : ℚ)⟩ : SearchRow) ∈
      get_relevant_documents [⟨"a", 10⟩, ⟨"b", 10⟩, ⟨"c", 12⟩] :=
  (adaptive_threshold_retains_best ⟨"a", 10⟩ [⟨"b", 10⟩, ⟨"c", 12⟩]
    (by decide) (by decide)).2.1

/-- C5: an empty similarity-search result yields an empty retrieval result,
and backfill over the empty context contributes no table description; both
functions are total, so no error is raised. -/
theorem empty_search_empty_retrieval :
    get_relevant_documents [] = [] ∧
      ∀ docs : List SchemaDoc, extract_table_descriptions [] docs = "" ∧
        backfilledTables [] docs = [] :=
  ⟨rfl, fun _ => ⟨rfl, rfl⟩⟩

/-! ## Claim theorems: SQL validator -/

/-- C3: the compile-only schema/syntax check fails exactly when the database
reports an error for the EXPLAIN QUERY PLAN form of the query, surfaces that
error verbatim as the reason, passes when no error is reported, and submits
the query to the database only through the compile-only EXPLAIN QUERY PLAN
path. -/
theorem check_sql_schema_and_syntax_spec (db : String → Option String)
    (sql : String) :
    (( check_sql_schema_and_syntax db sql).1.1 = false ↔
        db ("EXPLAIN QUERY PLAN " ++ sql) ≠ Option.none) ∧
      (∀ e, db ("EXPLAIN QUERY PLAN " ++ sql) = some e →
        ( check_sql_schema_and_syntax db sql).1.2 = PyReason.s e) ∧
      (db ("EXPLAIN QUERY PLAN " ++ sql) = Option.none →
        ( check_sql_schema_and_syntax db sql).1 = (true, PyReason.noneV)) ∧
      (∀ cmd ∈ ( check_sql_schema_and_syntax db sql).2,
        cmd = "EXPLAIN QUERY PLAN " ++ sql) := by
  unfold check_sql_schema_and_syntax
  cases h : db ("EXPLAIN QUERY PLAN " ++ sql) <;> simp [h]

/-- Witness for C3 at a database oracle that reports no error. -/
theorem check_sql_schema_and_syntax_witness :
    ( check_sql_schema_and_syntax (fun _ => Option.none) "SELECT 1").1
      = (true, PyReason.noneV) :=
  (check_sql_schema_and_syntax_spec (fun _ => Option.none) "SELECT 1").2.2.1 rfl

/-- C10: on an accepting outcome the forbidden-keyword check reports the
empty string while the compile-only check reports Python None — two distinct
reason values. -/
theorem accepting_reasons_differ (sql : String) (db : String → Option String) :
    ((check_forbidden_keywords sql).1 = true →
        (check_forbidden_keywords sql).2 = PyReason.s "") ∧
      (( check_sql_schema_and_syntax db sql).1.1 = true →
        ( check_sql_schema_and_syntax db sql).1.2 = PyReason.noneV) ∧
      PyReason.s "" ≠ PyReason.noneV := by
  refine ⟨?_, ?_, by decide⟩
  · unfold check_forbidden_keywords
    cases h : (FORBIDDEN_KEYWORDS.filter
        (fun term => strContainsSub (pyUpper sql) term)).isEmpty <;> simp [h]
  · unfold check_sql_schema_and_syntax
    cases h : db ("EXPLAIN QUERY PLAN " ++ sql) <;> simp [h]

/-- Witness for C10 at a query passing both checks. -/
theorem accepting_reasons_differ_witness :
    (check_forbidden_keywords "SELECT 1").2 = PyReason.s "" ∧
      ( check_sql_schema_and_syntax (fun _ => Option.none) "SELECT 1").1.2
        = PyReason.noneV :=
  ⟨(accepting_reasons_differ "SELECT 1" (fun _ => Option.none)).1 (by decide),
   (accepting_reasons_differ "SELECT 1" (fun _ => Option.none)).2.1 (by rfl)⟩

/-! ## Claim theorems: column documents -/

/-- C6: every ColumnDocument built by the spec-modelled builder has
related_table and related_column both present or both absent, present only
when is_foreign_key is true, and a column participating in a foreign-key
edge gets the flag and the referenced table and column of its edge. -/
theorem mkColumnDoc_fk_invariant (table : String) (col : ColumnInfo)
    (fks : List FkEdge) (td : String) :
    ((mkColumnDoc table col fks td).related_table.isSome
        = (mkColumnDoc table col fks td).related_column.isSome) ∧
      ((mkColumnDoc table col fks td).related_table.isSome = true →
        (mkColumnDoc table col fks td).is_foreign_key = true) ∧
      (∀ fk, fks.find? (fun f => f.from_col == col.name) = some fk →
        (mkColumnDoc table col fks td).is_foreign_key = true ∧
          (mkColumnDoc table col fks td).related_table = some fk.ref_table ∧
          (mkColumnDoc table col fks td).related_column = some fk.to_col) := by
  unfold mkColumnDoc
  cases h : fks.find? (fun f => f.from_col == col.name) <;> simp [h]

/-- Witness for C6 at a concrete foreign-key column. -/
theorem mkColumnDoc_fk_invariant_witness :
    (mkColumnDoc "orders"
        ⟨1, "customer_id", "INTEGER", false, Option.none, 0, []⟩
        [⟨"customer_id", "customers", "id"⟩] "txt").related_table
      = some "customers" :=
  ((mkColumnDoc_fk_invariant "orders"
      ⟨1, "customer_id", "INTEGER", false, Option.none, 0, []⟩
      [⟨"customer_id", "customers", "id"⟩] "txt").2.2
    ⟨"customer_id", "customers", "id"⟩ (by decide)).2.1

/-- C9 counterexample: on a concrete primary-key column, the text produced
by `make_column_document` is not the single-sentence
"Table: T, Column: C. Type: TYPE. Sample values: ..." format asserted by
the spec. -/
theorem make_column_document_not_single_sentence :
    (make_column_document "orders"
        ⟨0, "id", "INTEGER", true, Option.none, 1, ["1", "2"]⟩).text
      ≠ claimedColumnText "orders"
          ⟨0, "id", "INTEGER", true, Option.none, 1, ["1", "2"]⟩ := by
  decide

/-- C9 amended: `make_column_document` composes the multi-line description
"Column: T.C / Data type / Nullable / Primary key / Default / Sample
values", carries the primary-key flag into the rendered text and the
metadata, and carries no foreign-key information: the related fields of the
document stay absent. -/
theorem make_column_document_format (table : String) (col : ColumnInfo) :
    (make_column_document table col).text
        = "Column: " ++ table ++ "." ++ col.name ++ "\n" ++
          "Data type: " ++ (if col.type = "" then "UNKNOWN" else col.type) ++
          "\n" ++
          "Nullable: " ++ (if col.notnull then "no" else "yes") ++ "\n" ++
          "Primary key: " ++ (if col.primary_key > 0 then "yes" else "no") ++
          "\n" ++
          "Default: " ++ (match col.default with
            | some d => d
            | Option.none => "None") ++ "\n" ++
          "Sample values: " ++ (if col.samples.isEmpty then "None"
            else String.intercalate ", " col.samples) ++ "\n" ∧
      (make_column_document table col).meta.lookup "primary_key"
          = some (PyVal.int col.primary_key) ∧
      (make_column_document table col).ref_table = Option.none ∧
      (make_column_document table col).ref_column = Option.none :=
  ⟨rfl, rfl, rfl, rfl⟩

/-- C2: the forbidden-keyword check rejects exactly when one of the five
forbidden keywords occurs in the query as a case-insensitive substring, and
the reason on a reject lists every matched keyword joined into one string;
on an accept the reason is the empty string. -/
theorem check_forbidden_keywords_spec (sql : String) :
    ((check_forbidden_keywords sql).1 = false ↔
        ∃ k ∈ FORBIDDEN_KEYWORDS, caseInsensitiveOccurs k sql = true) ∧
      (check_forbidden_keywords sql).2
        = (if (FORBIDDEN_KEYWORDS.filter
                (fun k => caseInsensitiveOccurs k sql)).isEmpty
            then PyReason.s ""
            else PyReason.s ("query has forbidden keywords " ++
              String.intercalate ", " (FORBIDDEN_KEYWORDS.filter
                (fun k => caseInsensitiveOccurs k sql)))) := by
  have hfe : FORBIDDEN_KEYWORDS.filter (fun k => caseInsensitiveOccurs k sql)
      = FORBIDDEN_KEYWORDS.filter
          (fun term => strContainsSub (pyUpper sql) term) := by
    apply List.filter_congr
    intro k hk
    fin_cases hk <;> rfl
  have h1 : (check_forbidden_keywords sql).1 = false ↔
      FORBIDDEN_KEYWORDS.filter
        (fun term => strContainsSub (pyUpper sql) term) ≠ [] := by
    simp only [check_forbidden_keywords]
    cases h : FORBIDDEN_KEYWORDS.filter
        (fun term => strContainsSub (pyUpper sql) term) with
    | nil => simp
    | cons a as => simp
  have h2 : FORBIDDEN_KEYWORDS.filter
      (fun term => strContainsSub (pyUpper sql) term) ≠ [] ↔
      ∃ k ∈ FORBIDDEN_KEYWORDS, caseInsensitiveOccurs k sql = true := by
    rw [← hfe]
    simp only [Ne, List.filter_eq_nil_iff, not_forall, not_not, exists_prop]
  refine ⟨h1.trans h2, ?_⟩
  simp only [check_forbidden_keywords]
  rw [hfe]
  cases h : FORBIDDEN_KEYWORDS.filter
      (fun term => strContainsSub (pyUpper sql) term) with
  | nil => simp
  | cons a as => simp

/-- Witness for C2 at a query containing two forbidden keywords. -/
theorem check_forbidden_keywords_spec_witness :
    (check_forbidden_keywords "update X drop table Y").1 = false :=
  (check_forbidden_keywords_spec "update X drop table Y").1.mpr
    ⟨"UPDATE", by decide, by decide⟩

/-- C7 counterexample: the sampling query is issued with LIMIT 3, so for a
column with five distinct non-null values only the first three are
collected, not up to five as the spec asserts. -/
theorem fetch_column_samples_not_five :
    fetch_column_samples
        ⟨fun _ _ => ["a", "b", "c", "d", "e"], fun _ _ => Option.none⟩ "t" "c"
      = Except.ok ["a", "b", "c"] ∧
    ¬ fetch_column_samples
        ⟨fun _ _ => ["a", "b", "c", "d", "e"], fun _ _ => Option.none⟩ "t" "c"
      = Except.ok ((["a", "b", "c", "d", "e"] : List String).take 5) := by
  refine ⟨rfl, fun h => ?_⟩
  have h5 : (["a", "b", "c"] : List String) = ["a", "b", "c", "d", "e"] := by
    injection (show (Except.ok ["a", "b", "c"] :
        Except SqliteErr (List String)) = Except.ok ["a", "b", "c", "d", "e"]
      from h)
  simp at h5

/-- C7 amended: for every table and column, sampling collects up to 3
distinct non-null values (the LIMIT value used by fetch_table_columns), and
the column document's text description includes the collected samples on
its "Sample values" line. -/
theorem fetch_column_samples_limit_three (db : SampleDb) (t c : String)
    (col : ColumnInfo) (hok : db.queryErr t c = Option.none)
    (hs : col.samples.isEmpty = false) :
    fetch_column_samples db t c = Except.ok ((db.distinctRows t c).take 3) ∧
      ((db.distinctRows t c).take 3).length ≤ 3 ∧
      strContainsSub (make_column_document t col).text
          ("Sample values: " ++ String.intercalate ", " col.samples)
        = true := by
  refine ⟨?_, List.length_take_le 3 _, ?_⟩
  · unfold fetch_column_samples
    rw [hok]
  · have hst : (if col.samples.isEmpty then "None"
          else String.intercalate ", " col.samples)
        = String.intercalate ", " col.samples := by
      simp [hs]
    have key := strContainsSub_mid
      ("Column: " ++ t ++ "." ++ col.name ++ "\n" ++
        "Data type: " ++ (if col.type = "" then "UNKNOWN" else col.type) ++
        "\n" ++ "Nullable: " ++ (if col.notnull then "no" else "yes") ++
        "\n" ++ "Primary key: " ++
        (if col.primary_key > 0 then "yes" else "no") ++ "\n" ++
        "Default: " ++ (match col.default with
          | some d => d
          | Option.none => "None") ++ "\n")
      "Sample values: "
      (if col.samples.isEmpty then "None"
        else String.intercalate ", " col.samples)
      "\n"
    rw [← hst]
    exact key

/-- Witness for C7 amended at a concrete oracle and column. -/
theorem fetch_column_samples_limit_three_witness :
    fetch_column_samples
        ⟨fun _ _ => ["a", "b", "c", "d"], fun _ _ => Option.none⟩ "t" "c"
      = Except.ok ["a", "b", "c"] ∧
    strContainsSub
        (make_column_document "t"
          ⟨0, "x", "TEXT", false, Option.none, 0, ["a", "b"]⟩).text
        ("Sample values: " ++ String.intercalate ", " ["a", "b"]) = true :=
  ⟨(fetch_column_samples_limit_three
      ⟨fun _ _ => ["a", "b", "c", "d"], fun _ _ => Option.none⟩ "t" "c"
      ⟨0, "x", "TEXT", false, Option.none, 0, ["a", "b"]⟩ rfl rfl).1,
   (fetch_column_samples_limit_three
      ⟨fun _ _ => ["a", "b", "c", "d"], fun _ _ => Option.none⟩ "t" "c"
      ⟨0, "x", "TEXT", false, Option.none, 0, ["a", "b"]⟩ rfl rfl).2.2⟩

/-- C8 counterexample: a sampling query failing with an error other than
OperationalError (for instance sqlite3.ProgrammingError) propagates instead
of yielding an empty sample list. -/
theorem fetch_column_samples_error_propagates :
    fetch_column_samples
        ⟨fun _ _ => [], fun _ _ => some (SqliteErr.otherError
          "ProgrammingError: Cannot operate on a closed cursor")⟩ "t" "c"
      = Except.error (SqliteErr.otherError
          "ProgrammingError: Cannot operate on a closed cursor") ∧
    (Except.error (SqliteErr.otherError
        "ProgrammingError: Cannot operate on a closed cursor")
      ≠ (Except.ok [] : Except SqliteErr (List String))) :=
  ⟨rfl, fun h => Except.noConfusion h⟩

/-- C8 amended: an OperationalError raised by the sampling query yields an
empty sample list without propagating, while any other sqlite error
propagates to the caller. -/
theorem fetch_column_samples_soft_fail (db : SampleDb) (t c : String) :
    (∀ m, db.queryErr t c = some (SqliteErr.operationalError m) →
        fetch_column_samples db t c = Except.ok []) ∧
      (∀ m, db.queryErr t c = some (SqliteErr.otherError m) →
        fetch_column_samples db t c
          = Except.error (SqliteErr.otherError m)) := by
  constructor <;> intro m h <;> unfold fetch_column_samples <;> rw [h]

/-- Witness for C8 amended at a concrete oracle raising OperationalError. -/
theorem fetch_column_samples_soft_fail_witness :
    fetch_column_samples
        ⟨fun _ _ => [], fun _ _ => some (SqliteErr.operationalError
          "no such column: x")⟩ "t" "c" = Except.ok [] :=
  (fetch_column_samples_soft_fail
      ⟨fun _ _ => [], fun _ _ => some (SqliteErr.operationalError
        "no such column: x")⟩ "t" "c").1 "no such column: x" rfl

/-! ## Helper lemmas for the backfill analysis -/

theorem str_append_empty (s : String) : s ++ "" = s :=
  String.ext (List.append_nil s.data)

theorem str_empty_append (s : String) : "" ++ s = s := rfl

theorem mem_uniqueAux (l : List String) :
    ∀ (seen : List String) (x : String),
      x ∈ uniqueAux l seen ↔ x ∈ l ∧ x ∉ seen := by
  induction l with
  | nil =>
    intro seen x
    simp [uniqueAux]
  | cons y ys ih =>
    intro seen x
    by_cases hy : y ∈ seen
    · simp only [uniqueAux, if_pos hy, ih, List.mem_cons]
      constructor
      · rintro ⟨h1, h2⟩
        exact ⟨Or.inr h1, h2⟩
      · rintro ⟨h1 | h1, h2⟩
        · subst h1
          exact absurd hy h2
        · exact ⟨h1, h2⟩
    · simp only [uniqueAux, if_neg hy, List.mem_cons, ih]
      constructor
      · rintro (rfl | ⟨h1, h2⟩)
        · exact ⟨Or.inl rfl, hy⟩
        · exact ⟨Or.inr h1, fun hxs => h2 (Or.inr hxs)⟩
      · rintro ⟨rfl | h1, h2⟩
        · exact Or.inl rfl
        · by_cases hxy : x = y
          · exact Or.inl hxy
          · exact Or.inr ⟨h1, fun hmem => hmem.elim hxy h2⟩

theorem nodup_uniqueAux (l : List String) :
    ∀ seen : List String, (uniqueAux l seen).Nodup := by
  induction l with
  | nil =>
    intro seen
    simp [uniqueAux]
  | cons y ys ih =>
    intro seen
    by_cases hy : y ∈ seen
    · rw [uniqueAux, if_pos hy]
      exact ih seen
    · rw [uniqueAux, if_neg hy]
      refine List.nodup_cons.mpr ⟨fun hmem => ?_, ih (y :: seen)⟩
      exact ((mem_uniqueAux ys (y :: seen) y).mp hmem).2 (List.mem_cons_self _ _)

theorem mem_uniqueFirst (l : List String) (x : String) :
    x ∈ uniqueFirst l ↔ x ∈ l := by
  rw [uniqueFirst, mem_uniqueAux]
  simp

theorem nodup_uniqueFirst (l : List String) : (uniqueFirst l).Nodup :=
  nodup_uniqueAux l []

theorem foldl_append_strConcat (f : String → String → String)
    (g : String → String) (hf : ∀ acc t, f acc t = acc ++ g t)
    (l : List String) : ∀ acc : String,
      l.foldl f acc = acc ++ strConcat (l.map g) := by
  induction l with
  | nil =>
    intro acc
    rw [List.foldl_nil, List.map_nil, strConcat, str_append_empty]
  | cons x xs ih =>
    intro acc
    rw [List.foldl_cons, hf, ih, List.map_cons, strConcat,
      ← String.append_assoc]

theorem strConcat_map_filter (p : String → Bool) (G g2 : String → String)
    (h0 : ∀ t, p t = false → G t = "") (h1 : ∀ t, p t = true → G t = g2 t)
    (l : List String) :
    strConcat (l.map G) = strConcat ((l.filter p).map g2) := by
  induction l with
  | nil => rfl
  | cons x xs ih =>
    cases hx : p x with
    | false =>
      rw [List.map_cons, strConcat, h0 x hx, str_empty_append, ih,
        List.filter_cons, if_neg (by simp [hx])]
    | true =>
      rw [List.map_cons, strConcat, h1 x hx, ih, List.filter_cons,
        if_pos (by simp [hx]), List.map_cons, strConcat]

theorem extract_loop (E : List String) (docs : List SchemaDoc)
    (l : List String) : ∀ acc : String,
    l.foldl (fun table_descriptions table_name =>
        if table_name ∈ E then table_descriptions
        else match docs.find? (fun d => d.doc_id == "table:" ++ table_name) with
          | some document => table_descriptions ++ wrapDoc document.text
          | Option.none => table_descriptions) acc
      = acc ++ strConcat (((l.filter (fun t => ¬ t ∈ E)).filter
          (fun t => (docs.find? (fun d => d.doc_id == "table:" ++ t)).isSome)).map
            (fun t => match docs.find? (fun d => d.doc_id == "table:" ++ t) with
              | some d => wrapDoc d.text
              | Option.none => "")) := by
  induction l with
  | nil =>
    intro acc
    exact (str_append_empty acc).symm
  | cons x xs ih =>
    intro acc
    rw [List.foldl_cons]
    by_cases hx : x ∈ E
    · rw [if_pos hx, ih, List.filter_cons, if_neg (by simp [hx])]
    · rw [if_neg hx]
      cases hf : docs.find? (fun d => d.doc_id == "table:" ++ x) with
      | none =>
        rw [ih, List.filter_cons, if_pos (by simp [hx]), List.filter_cons,
          if_neg (by simp [hf])]
      | some doc =>
        rw [ih, List.filter_cons, if_pos (by simp [hx]), List.filter_cons,
          if_pos (by simp [hf]), List.map_cons, strConcat]
        simp only [hf]
        rw [← String.append_assoc]

/-- C4: backfill appends at most one table entry per table name (the
selected names are duplicate-free); a table name is selected exactly when it
has an in-context column document, no in-context table document, and a
matching table document in the in-memory list — so a table whose table
document is already retained is never re-added, and a table without a
matching document is skipped (the function is total: no error path); and
the string built by `extract_table_descriptions` is exactly the
concatenation, in order, of the wrapped looked-up descriptions of the
selected tables. -/
theorem extract_table_descriptions_backfill (ctx : List ContextRow)
    (docs : List SchemaDoc) :
    (backfilledTables ctx docs).Nodup ∧
      (∀ t, t ∈ backfilledTables ctx docs ↔
        ((∃ r ∈ ctx, r.doc_type = "column" ∧ r.table = t) ∧
          (¬ ∃ r ∈ ctx, r.doc_type = "table" ∧ r.table = t) ∧
          ∃ d ∈ docs, d.doc_id = "table:" ++ t)) ∧
      extract_table_descriptions ctx docs
        = strConcat ((backfilledTables ctx docs).map (fun t =>
            match docs.find? (fun d => d.doc_id == "table:" ++ t) with
            | some d => wrapDoc d.text
            | Option.none => "")) := by
  refine ⟨?_, ?_, ?_⟩
  · unfold backfilledTables
    exact ((nodup_uniqueFirst _).filter _).filter _
  · intro t
    unfold backfilledTables
    simp only [List.mem_filter, mem_uniqueFirst, List.mem_map,
      decide_eq_true_eq, List.find?_isSome, beq_iff_eq, and_assoc]
  · simp only [extract_table_descriptions]
    rw [extract_loop, str_empty_append]
    rfl
